import Mathlib

/-!
Verification development for the MyRuubix authorization and session-lifecycle
core. The definitions below are a shallow embedding of the TypeScript source:

* `src/core/domain/models/User.ts` — roles, permissions, the static
  role→permission table and `UserRoleUtils`;
* `FirebaseRoleRepository` (role assignment workflow) — `validateRoleAssignment`,
  `assignRole`, `removeRole`, `getUserRole`, `createRoleChangeRequest`,
  `approveRoleChangeRequest`, `rejectRoleChangeRequest`. Firestore is modelled
  as an explicit state record; `runTransaction` semantics is captured by the
  `Except` result: an `.error` outcome commits nothing (the caller state is
  unchanged), an `.ok` outcome is the committed post-state.
* `FirebaseAuthRepository.getCurrentUser` / `validateUserRole` /
  `refreshUserPermissions` and the `AuthProvider` initialization and
  auto-refresh effects in `AuthContext.tsx`. The transient success or failure
  of each individual Firestore `getDoc` round trip is injected explicitly as a
  `Fetch` argument, so that soft-fail behaviour can be stated.
-/

namespace MyRuubix

/-- The three-tier role enumeration of `User.ts` (`UserRole`). -/
inductive UserRole where
  | SUPER_ADMIN
  | ADMIN
  | USER
  deriving DecidableEq, Repr

/-- The closed permission set of `User.ts` (`Permission`). -/
inductive Permission where
  | MANAGE_USERS
  | VIEW_USERS
  | DELETE_USERS
  | EDIT_USER_PROFILES
  | ASSIGN_ADMIN_ROLE
  | REVOKE_ADMIN_ROLE
  | MANAGE_ROLES
  | VIEW_ANALYTICS
  | MANAGE_SYSTEM
  | ACCESS_ADMIN_PANEL
  | VIEW_AUDIT_LOGS
  | EXPORT_USER_DATA
  | UNLIMITED_SOLVES
  | ACCESS_PREMIUM_FEATURES
  | EXPORT_SOLVE_DATA
  | ACCESS_AI_SOLVER
  | MODERATE_CONTENT
  | MANAGE_LEADERBOARDS
  | SEND_NOTIFICATIONS
  | API_ACCESS
  | BETA_FEATURES
  deriving DecidableEq, Repr

/-- The static `ROLE_PERMISSIONS` table of `User.ts`, with each role list
in the order it is written in the source. -/
def ROLE_PERMISSIONS : UserRole → List Permission
  | UserRole.SUPER_ADMIN =>
    [Permission.MANAGE_USERS, Permission.VIEW_USERS, Permission.DELETE_USERS,
     Permission.EDIT_USER_PROFILES, Permission.ASSIGN_ADMIN_ROLE,
     Permission.REVOKE_ADMIN_ROLE, Permission.MANAGE_ROLES,
     Permission.VIEW_ANALYTICS, Permission.MANAGE_SYSTEM,
     Permission.ACCESS_ADMIN_PANEL, Permission.VIEW_AUDIT_LOGS,
     Permission.EXPORT_USER_DATA, Permission.UNLIMITED_SOLVES,
     Permission.ACCESS_PREMIUM_FEATURES, Permission.EXPORT_SOLVE_DATA,
     Permission.ACCESS_AI_SOLVER, Permission.MODERATE_CONTENT,
     Permission.MANAGE_LEADERBOARDS, Permission.SEND_NOTIFICATIONS,
     Permission.API_ACCESS, Permission.BETA_FEATURES]
  | UserRole.ADMIN =>
    [Permission.MANAGE_USERS, Permission.VIEW_USERS, Permission.DELETE_USERS,
     Permission.EDIT_USER_PROFILES,
     Permission.VIEW_ANALYTICS, Permission.MANAGE_SYSTEM,
     Permission.ACCESS_ADMIN_PANEL, Permission.VIEW_AUDIT_LOGS,
     Permission.EXPORT_USER_DATA, Permission.UNLIMITED_SOLVES,
     Permission.ACCESS_PREMIUM_FEATURES, Permission.EXPORT_SOLVE_DATA,
     Permission.ACCESS_AI_SOLVER, Permission.MODERATE_CONTENT,
     Permission.MANAGE_LEADERBOARDS, Permission.SEND_NOTIFICATIONS,
     Permission.API_ACCESS, Permission.BETA_FEATURES]
  | UserRole.USER =>
    [Permission.EXPORT_SOLVE_DATA, Permission.ACCESS_PREMIUM_FEATURES,
     Permission.ACCESS_AI_SOLVER]

namespace UserRoleUtils

/-- `UserRoleUtils.getPermissionsForRole` from `User.ts` (total lookup in the
static table; the `|| []` fallback is unreachable since the table is total). -/
def getPermissionsForRole (role : UserRole) : List Permission :=
  ROLE_PERMISSIONS role

/-- `UserRoleUtils.getRoleLevel` from `User.ts`. -/
def getRoleLevel : UserRole → Nat
  | UserRole.USER => 1
  | UserRole.ADMIN => 2
  | UserRole.SUPER_ADMIN => 3

end UserRoleUtils

/-- `FirebaseRoleRepository.validateRoleAssignment`: super admin may assign any
role; admin may assign the user role only; users may assign nothing. Pure
function of its two arguments, exactly as in `part_010` lines 336-349. -/
def validateRoleAssignment (assignerRole targetRole : UserRole) : Bool :=
  if assignerRole = UserRole.SUPER_ADMIN then
    true
  else if assignerRole = UserRole.ADMIN ∧ targetRole = UserRole.USER then
    true
  else
    false

/-- A stored user document in the `users` collection (the fields of the
Firestore user document that the role workflow reads or writes). -/
structure StoredUser where
  id : String
  email : String
  role : UserRole
  permissions : List Permission
  lastRoleModifiedBy : Option String
  deriving DecidableEq, Repr

/-- A stored role-change request document in the `role_requests` collection
(the fields of `RoleChangeRequest` the workflow reads or writes). -/
structure RequestRecord where
  id : String
  userId : String
  requestedRole : UserRole
  currentRole : UserRole
  reason : String
  requestedBy : String
  approved : Bool
  status : String
  approvedBy : Option String
  rejectedBy : Option String
  rejectionReason : Option String
  deriving DecidableEq, Repr

/-- An entry of the append-only `audit_logs` collection as written by
`assignRole` (action `role_assigned`, with a reason) and `removeRole`
(action `role_removed`, without one). -/
structure AuditRecord where
  action : String
  performedBy : String
  targetUserId : String
  previousRole : UserRole
  newRole : UserRole
  reason : Option String
  deriving DecidableEq, Repr

/-- `RoleAssignmentDTO` from `User.ts`. -/
structure RoleAssignmentDTO where
  userId : String
  newRole : UserRole
  assignedBy : String
  reason : Option String
  deriving DecidableEq, Repr

/-- Keyed-document lookup in a collection modelled as an association list. -/
def lookupEntry {α : Type} : List (String × α) → String → Option α
  | [], _ => none
  | p :: rest, k => if p.1 = k then some p.2 else lookupEntry rest k

/-- `transaction.update` / `updateDoc` on a keyed collection: rewrite the
document stored under `k` with `f`, leaving every other document alone. -/
def updateEntry {α : Type} : List (String × α) → String → (α → α) → List (String × α)
  | [], _, _ => []
  | p :: rest, k, f =>
    if p.1 = k then (p.1, f p.2) :: updateEntry rest k f
    else p :: updateEntry rest k f

/-- `setDoc` on a keyed collection: overwrite the document under `k` if it
exists, otherwise append it. -/
def setEntry {α : Type} (l : List (String × α)) (k : String) (v : α) : List (String × α) :=
  match lookupEntry l k with
  | some _ => updateEntry l k (fun _ => v)
  | none => l ++ [(k, v)]

/-- The Firestore state visible to `FirebaseRoleRepository`: the `users`,
`role_requests` and `audit_logs` collections. -/
structure FirestoreState where
  users : List (String × StoredUser)
  requests : List (String × RequestRecord)
  auditLogs : List AuditRecord
  deriving DecidableEq, Repr

/-- Post-state of a transactional call: on `.ok` the committed state, on
`.error` the transaction aborted and the caller state is unchanged. -/
def commitOr (s : FirestoreState) (r : Except String FirestoreState) : FirestoreState :=
  match r with
  | Except.ok s2 => s2
  | Except.error _ => s

/-- `FirebaseRoleRepository.getUserRole`: read the user role; both the
missing-document throw and any fetch error are caught and default to
`UserRole.USER`. -/
def getUserRole (s : FirestoreState) (userId : String) : UserRole :=
  match lookupEntry s.users userId with
  | none => UserRole.USER
  | some u => u.role

/-- `FirebaseRoleRepository.assignRole` (`part_010` lines 42-99): inside one
transaction, read the target, validate the assigner role against the
assignment matrix, then update the target role and permissions and append
one audit entry; any throw aborts the whole transaction and is rewrapped by
the outer catch. -/
def assignRole (s : FirestoreState) (a : RoleAssignmentDTO) : Except String FirestoreState :=
  match lookupEntry s.users a.userId with
  | none => Except.error "Failed to assign role: User not found"
  | some userData =>
    let currentRole := userData.role
    let assignerRole := getUserRole s a.assignedBy
    if validateRoleAssignment assignerRole a.newRole then
      let newPermissions := UserRoleUtils.getPermissionsForRole a.newRole
      Except.ok
        { s with
          users := updateEntry s.users a.userId
            (fun u => { u with
              role := a.newRole
              permissions := newPermissions
              lastRoleModifiedBy := some a.assignedBy })
          auditLogs := s.auditLogs ++
            [{ action := "role_assigned"
               performedBy := a.assignedBy
               targetUserId := a.userId
               previousRole := currentRole
               newRole := a.newRole
               reason := a.reason }] }
    else
      Except.error "Failed to assign role: Insufficient privileges to assign this role"

/-- `FirebaseRoleRepository.removeRole` (`part_010` lines 104-161): validate
the remover against target role `USER`, refuse to touch a super-admin target,
otherwise revert the target to the default user role with the user permission
list and append one `role_removed` audit entry; all in one transaction. -/
def removeRole (s : FirestoreState) (userId removedBy : String) : Except String FirestoreState :=
  match lookupEntry s.users userId with
  | none => Except.error "Failed to remove role: User not found"
  | some userData =>
    let currentRole := userData.role
    let removerRole := getUserRole s removedBy
    if !(validateRoleAssignment removerRole UserRole.USER) then
      Except.error "Failed to remove role: Insufficient privileges to remove this role"
    else if currentRole = UserRole.SUPER_ADMIN then
      Except.error "Failed to remove role: Cannot remove super admin role"
    else
      let newPermissions := UserRoleUtils.getPermissionsForRole UserRole.USER
      Except.ok
        { s with
          users := updateEntry s.users userId
            (fun u => { u with
              role := UserRole.USER
              permissions := newPermissions
              lastRoleModifiedBy := some removedBy })
          auditLogs := s.auditLogs ++
            [{ action := "role_removed"
               performedBy := removedBy
               targetUserId := userId
               previousRole := currentRole
               newRole := UserRole.USER
               reason := none }] }

/-- `FirebaseRoleRepository.createRoleChangeRequest` (`part_010` lines
198-219): spread the caller-supplied request, then override `id` with the
fresh document id and force `status := "pending"`, `approved := false`; store
with `setDoc` and return the fresh id. The fresh id generated by
`doc(collection(...))` is passed in explicitly. -/
def createRoleChangeRequest (s : FirestoreState) (request : RequestRecord)
    (freshId : String) : FirestoreState × String :=
  let requestDoc := { request with
    id := freshId
    status := "pending"
    approved := false }
  ({ s with requests := setEntry s.requests freshId requestDoc }, freshId)

/-- `FirebaseRoleRepository.approveRoleChangeRequest` (`part_010` lines
224-271): look the request up, guard ONLY on the `approved` flag, validate the
approver against the requested role, apply the change through `assignRole`,
then mark the request approved. -/
def approveRoleChangeRequest (s : FirestoreState) (requestId approvedBy : String) :
    Except String FirestoreState :=
  match lookupEntry s.requests requestId with
  | none => Except.error "Failed to approve role change request: Role change request not found"
  | some requestData =>
    if requestData.approved then
      Except.error "Failed to approve role change request: Request already processed"
    else
      let approverRole := getUserRole s approvedBy
      if !(validateRoleAssignment approverRole requestData.requestedRole) then
        Except.error "Failed to approve role change request: Insufficient privileges to approve this role change"
      else
        match assignRole s
          { userId := requestData.userId
            newRole := requestData.requestedRole
            assignedBy := approvedBy
            reason := some ("Approved request: " ++ requestData.reason) } with
        | Except.error e => Except.error ("Failed to approve role change request: " ++ e)
        | Except.ok s2 =>
          Except.ok
            { s2 with requests := (updateEntry s2.requests requestId
                (fun r => { r with
                  approved := true
                  approvedBy := some approvedBy
                  status := "approved" })) }

/-- `FirebaseRoleRepository.rejectRoleChangeRequest` (`part_010` lines
276-306): look the request up, guard ONLY on the `approved` flag, then write
`approved := false`, the rejection metadata and `status := "rejected"`. -/
def rejectRoleChangeRequest (s : FirestoreState) (requestId rejectedBy : String)
    (reason : Option String) : Except String FirestoreState :=
  match lookupEntry s.requests requestId with
  | none => Except.error "Failed to reject role change request: Role change request not found"
  | some requestData =>
    if requestData.approved then
      Except.error "Failed to reject role change request: Request already processed"
    else
      Except.ok
        { s with requests := (updateEntry s.requests requestId
            (fun r => { r with
              approved := false
              rejectedBy := some rejectedBy
              rejectionReason := reason
              status := "rejected" })) }

/-- Transient outcome of one Firestore `getDoc` round trip: it either succeeds
or throws a (caught) transient error. Injected explicitly so the soft-fail
behaviour of the session manager can be stated. -/
inductive Fetch where
  | ok
  | fail
  deriving DecidableEq, Repr

/-- `FirebaseAuthRepository.getUserFromFirestore`: returns the stored user
document, or `none` either when the document is missing or when the fetch
throws (the catch block logs and returns null). -/
def getUserFromFirestore (docs : List (String × StoredUser)) (f : Fetch)
    (userId : String) : Option StoredUser :=
  match f with
  | Fetch.fail => none
  | Fetch.ok => lookupEntry docs userId

/-- `FirebaseAuthRepository.validateUserRole`: read the authoritative role.
A missing document throws `USER_NOT_FOUND` and a failed fetch throws, but both
are caught by the function own catch block, which returns `UserRole.USER`
(the source comments this as defaulting to the user role on error). -/
def validateUserRole (docs : List (String × StoredUser)) (f : Fetch)
    (userId : String) : UserRole :=
  match f with
  | Fetch.fail => UserRole.USER
  | Fetch.ok =>
    match lookupEntry docs userId with
    | none => UserRole.USER
    | some u => u.role

/-- `FirebaseAuthRepository.refreshUserPermissions`: permissions of the role
returned by a second, independent `validateUserRole` round trip. -/
def refreshUserPermissions (docs : List (String × StoredUser)) (f : Fetch)
    (userId : String) : List Permission :=
  UserRoleUtils.getPermissionsForRole (validateUserRole docs f userId)

/-- Result of `FirebaseAuthRepository.getCurrentUser`: the returned user (or
null) together with whether `signOut(auth)` was invoked on the identity
provider during the call. -/
structure CurrentUserResult where
  result : Option StoredUser
  firebaseSignOutCalled : Bool
  deriving DecidableEq, Repr

/-- `FirebaseAuthRepository.getCurrentUser` (lines 411-442): null when no
identity-provider session exists; when the user document cannot be obtained
(missing or fetch failure) it calls `signOut(auth)` and returns null;
otherwise it returns the stored user with role and permissions overridden by
two further validation round trips (`fRole`, `fPerm`). Its outer catch also
returns null, so the function never throws. `refreshUserData` is defined in
the source as exactly this function. -/
def getCurrentUser (authSession : Option String) (docs : List (String × StoredUser))
    (fDoc fRole fPerm : Fetch) : CurrentUserResult :=
  match authSession with
  | none => { result := none, firebaseSignOutCalled := false }
  | some uid =>
    match getUserFromFirestore docs fDoc uid with
    | none => { result := none, firebaseSignOutCalled := true }
    | some user =>
      { result := some { user with
          role := validateUserRole docs fRole uid
          permissions := refreshUserPermissions docs fPerm uid }
        firebaseSignOutCalled := false }

/-- The `user_cache` entry the `AuthProvider` writes to secure storage:
id, email, role, permissions and the refresh time. -/
structure CachedSession where
  id : String
  email : String
  role : UserRole
  permissions : List Permission
  lastRefresh : Nat
  deriving DecidableEq, Repr

/-- The `AuthProvider` React state relevant to the Authorization Guard: the
held principal, the `isAuthenticated` flag and the secure-storage cache. -/
structure AuthState where
  user : Option StoredUser
  isAuthenticated : Bool
  cache : Option CachedSession
  deriving DecidableEq, Repr

/-- The `user_cache` payload written for a user at time `now`. -/
def mkCache (u : StoredUser) (now : Nat) : CachedSession :=
  { id := u.id, email := u.email, role := u.role
    permissions := u.permissions, lastRefresh := now }

/-- `AuthContextType.hasPermission`: false with no principal, otherwise
membership of the permission in the principal permission list
(`UserRoleUtils.hasPermission`). -/
def hasPermission (st : AuthState) (p : Permission) : Bool :=
  match st.user with
  | none => false
  | some u => decide (p ∈ u.permissions)

/-- `AuthContextType.hasRole`: false with no principal, otherwise equality
with the principal role. -/
def hasRole (st : AuthState) (r : UserRole) : Bool :=
  match st.user with
  | none => false
  | some u => decide (u.role = r)

/-- Outcome of the `AuthProvider` initialization effect (`initializeAuth`,
`AuthContext.tsx` lines 91-138). -/
structure InitResult where
  user : Option StoredUser
  isAuthenticated : Bool
  isInitialized : Bool
  errorSurfaced : Bool
  cache : Option CachedSession
  deriving DecidableEq, Repr

/-- The `AuthProvider` initialization effect, named `initializeAuth` in
`AuthContext.tsx`: call `getCurrentUser`; if a user comes back, install it,
set authenticated, write the cache and mark initialized; if null comes back,
clear any stale cache and mark initialized with no error. The effect catch
branch (which would surface an error and leave `isInitialized` false) is
unreachable for identity/role fetch failures because `getCurrentUser` catches
every error and returns null. -/
def initAuth (authSession : Option String) (docs : List (String × StoredUser))
    (fDoc fRole fPerm : Fetch) (now : Nat) : InitResult :=
  match (getCurrentUser authSession docs fDoc fRole fPerm).result with
  | some currentUser =>
    { user := some currentUser
      isAuthenticated := true
      isInitialized := true
      errorSurfaced := false
      cache := some (mkCache currentUser now) }
  | none =>
    { user := none
      isAuthenticated := false
      isInitialized := true
      errorSurfaced := false
      cache := none }

/-- Result of one tick of the auto-refresh interval: the new provider state
and whether the identity provider `signOut` was invoked inside the
repository call. -/
structure TickResult where
  state : AuthState
  firebaseSignOutCalled : Bool
  deriving DecidableEq, Repr

/-- One tick of the `AuthProvider` auto-refresh effect (`AuthContext.tsx`
lines 143-193): installed only while authenticated with a held user; calls
`refreshUserData` (= `getCurrentUser`); if a user with the same id comes back
and its role or permission list differs from the held principal, install the
refreshed user and rewrite the cache; otherwise change nothing. Errors inside
the effect body are caught and explicitly do not log the user out; in this
model nothing throws because the repository catches every fetch error. -/
def autoRefreshTick (st : AuthState) (authSession : Option String)
    (docs : List (String × StoredUser)) (fDoc fRole fPerm : Fetch)
    (now : Nat) : TickResult :=
  match st.user, st.isAuthenticated with
  | some user, true =>
    let r := getCurrentUser authSession docs fDoc fRole fPerm
    match r.result with
    | some refreshedUser =>
      if refreshedUser.id = user.id then
        if refreshedUser.role ≠ user.role ∨ refreshedUser.permissions ≠ user.permissions then
          { state := { st with
              user := some refreshedUser
              cache := some (mkCache refreshedUser now) }
            firebaseSignOutCalled := r.firebaseSignOutCalled }
        else
          { state := st, firebaseSignOutCalled := r.firebaseSignOutCalled }
      else
        { state := st, firebaseSignOutCalled := r.firebaseSignOutCalled }
    | none => { state := st, firebaseSignOutCalled := r.firebaseSignOutCalled }
  | _, _ => { state := st, firebaseSignOutCalled := false }

/-- A concrete super-admin account. -/
def saUser : StoredUser :=
  { id := "sa", email := "superadmin@rubixsolver.app"
    role := UserRole.SUPER_ADMIN
    permissions := UserRoleUtils.getPermissionsForRole UserRole.SUPER_ADMIN
    lastRoleModifiedBy := none }

/-- A concrete admin account. -/
def adUser : StoredUser :=
  { id := "ad", email := "admin@example.com"
    role := UserRole.ADMIN
    permissions := UserRoleUtils.getPermissionsForRole UserRole.ADMIN
    lastRoleModifiedBy := none }

/-- A concrete standard-user account. -/
def stUser : StoredUser :=
  { id := "t1", email := "user@example.com"
    role := UserRole.USER
    permissions := UserRoleUtils.getPermissionsForRole UserRole.USER
    lastRoleModifiedBy := none }

/-- A concrete `users` collection holding the three accounts. -/
def exampleUsers : List (String × StoredUser) :=
  [("sa", saUser), ("ad", adUser), ("t1", stUser)]

/-- A concrete pending role-change request asking to promote `t1` to admin. -/
def pendingReq : RequestRecord :=
  { id := "r1", userId := "t1"
    requestedRole := UserRole.ADMIN, currentRole := UserRole.USER
    reason := "needs admin", requestedBy := "t1"
    approved := false, status := "pending"
    approvedBy := none, rejectedBy := none, rejectionReason := none }

/-- A concrete Firestore state: the three accounts, the pending request, and
an empty audit log. -/
def exampleState : FirestoreState :=
  { users := exampleUsers, requests := [("r1", pendingReq)], auditLogs := [] }

/-- The state after the super admin rejects the pending request `r1`. -/
def afterRejectState : FirestoreState :=
  commitOr exampleState (rejectRoleChangeRequest exampleState "r1" "sa" none)

/-- A concrete provider state holding the admin principal, authenticated,
with a matching cache entry. -/
def exampleAuthState : AuthState :=
  { user := some adUser, isAuthenticated := true, cache := some (mkCache adUser 0) }

end MyRuubix

namespace MyRuubix

theorem lookupEntry_updateEntry_self {α : Type} (l : List (String × α)) (k : String)
    (f : α → α) : lookupEntry (updateEntry l k f) k = (lookupEntry l k).map f := by
  induction l with
  | nil => rfl
  | cons p rest ih =>
    by_cases h : p.1 = k
    · simp [updateEntry, lookupEntry, h]
    · simp [updateEntry, lookupEntry, h, ih]

theorem lookupEntry_append_none {α : Type} (l l2 : List (String × α)) (k : String)
    (h : lookupEntry l k = none) : lookupEntry (l ++ l2) k = lookupEntry l2 k := by
  induction l with
  | nil => rfl
  | cons p rest ih =>
    by_cases hp : p.1 = k
    · simp [lookupEntry, hp] at h
    · simp only [List.cons_append, lookupEntry, if_neg hp] at h ⊢
      exact ih h

theorem lookupEntry_setEntry_self {α : Type} (l : List (String × α)) (k : String)
    (v : α) : lookupEntry (setEntry l k v) k = some v := by
  unfold setEntry
  cases h : lookupEntry l k with
  | none =>
    show lookupEntry (l ++ [(k, v)]) k = some v
    rw [lookupEntry_append_none l _ k h]
    simp [lookupEntry]
  | some a =>
    show lookupEntry (updateEntry l k fun _ => v) k = some v
    rw [lookupEntry_updateEntry_self, h]
    rfl

/-- C5: the assignment-validity function takes exactly the stated values:
`validateRoleAssignment SUPER_ADMIN ADMIN = true`,
`validateRoleAssignment ADMIN ADMIN = false`,
`validateRoleAssignment ADMIN USER = true`, and
`validateRoleAssignment USER t = false` for every target role `t`. Purity is
inherent: the embedding is a function of its two arguments alone, exactly as
the source computes the result without any I/O. -/
theorem validateRoleAssignment_matrix :
    validateRoleAssignment UserRole.SUPER_ADMIN UserRole.ADMIN = true ∧
    validateRoleAssignment UserRole.ADMIN UserRole.ADMIN = false ∧
    validateRoleAssignment UserRole.ADMIN UserRole.USER = true ∧
    ∀ t : UserRole, validateRoleAssignment UserRole.USER t = false := by
  refine ⟨rfl, rfl, rfl, ?_⟩
  intro t
  cases t <;> rfl

/-- C1 counterexample: the claim that every assignment targeting the elevated
role is rejected is false for a SUPER_ADMIN actor: `validateRoleAssignment
SUPER_ADMIN SUPER_ADMIN = true` (the first branch of the source returns true
for a super-admin assigner regardless of the target role), and consequently
`assignRole` promoting an existing standard user to SUPER_ADMIN succeeds when
performed by the super admin. -/
theorem superAdmin_can_target_superAdmin :
    validateRoleAssignment UserRole.SUPER_ADMIN UserRole.SUPER_ADMIN = true ∧
    (assignRole exampleState
      { userId := "t1", newRole := UserRole.SUPER_ADMIN
        assignedBy := "sa", reason := none }).isOk = true := by
  decide

/-- C1 amended: an assignment targeting SUPER_ADMIN is rejected exactly when
the assigner role is not SUPER_ADMIN: `validateRoleAssignment r SUPER_ADMIN`
is true iff `r = SUPER_ADMIN`, and `assignRole` with `newRole = SUPER_ADMIN`
fails for every assigner whose stored role is not SUPER_ADMIN. -/
theorem assignRole_superAdmin_target (s : FirestoreState) (a : RoleAssignmentDTO) :
    (∀ r : UserRole,
      validateRoleAssignment r UserRole.SUPER_ADMIN = decide (r = UserRole.SUPER_ADMIN)) ∧
    (a.newRole = UserRole.SUPER_ADMIN →
      getUserRole s a.assignedBy ≠ UserRole.SUPER_ADMIN →
      ∃ e, assignRole s a = Except.error e) := by
  constructor
  · intro r
    cases r <;> rfl
  · intro hnew hassigner
    have hv : validateRoleAssignment (getUserRole s a.assignedBy) a.newRole = false := by
      rw [hnew]
      revert hassigner
      cases getUserRole s a.assignedBy <;> simp [validateRoleAssignment]
    unfold assignRole
    cases h : lookupEntry s.users a.userId with
    | none => exact ⟨_, rfl⟩
    | some u =>
      refine ⟨"Failed to assign role: Insufficient privileges to assign this role", ?_⟩
      simp [hv]

/-- C1 amended witness: at the concrete state, an ADMIN assigner attempting to
promote `t1` to SUPER_ADMIN fails. -/
theorem assignRole_superAdmin_target_witness :
    ∃ e, assignRole exampleState
      { userId := "t1", newRole := UserRole.SUPER_ADMIN
        assignedBy := "ad", reason := none } = Except.error e :=
  (assignRole_superAdmin_target exampleState
    { userId := "t1", newRole := UserRole.SUPER_ADMIN
      assignedBy := "ad", reason := none }).2 rfl (by decide)

/-- C10: every request stored through `createRoleChangeRequest` is persisted
with `status = "pending"` and `approved = false`, whatever status or approved
flag the caller supplied: the spread of the input is overridden by the forced
fields before `setDoc`. -/
theorem createRoleChangeRequest_forces_pending (s : FirestoreState)
    (request : RequestRecord) (freshId : String) :
    (createRoleChangeRequest s request freshId).2 = freshId ∧
    lookupEntry (createRoleChangeRequest s request freshId).1.requests freshId =
      some { request with id := freshId, status := "pending", approved := false } :=
  ⟨rfl, lookupEntry_setEntry_self _ _ _⟩

/-- C4 counterexample: with a live identity-provider session for `ad`, a
failure to reach the user/role store during initialization produces exactly
the same outcome as having no session at all — initialization completes in the
unauthenticated state with `isInitialized = true` and no surfaced error, so
the failure is not distinguishable by the caller. -/
theorem initAuth_failure_indistinguishable :
    initAuth (some "ad") exampleUsers Fetch.fail Fetch.ok Fetch.ok 0 =
      initAuth none exampleUsers Fetch.ok Fetch.ok Fetch.ok 0 ∧
    (initAuth (some "ad") exampleUsers Fetch.fail Fetch.ok Fetch.ok 0).errorSurfaced = false := by
  decide

/-- C4 amended: when the identity/role source cannot be reached during
initialization, `getCurrentUser` catches the error and returns null, so
`initAuth` completes normally in the unauthenticated state (initialized, no
error surfaced, cache cleared) — the very same result as the normal no-session
outcome, for every store content and session id. -/
theorem initAuth_failure_completes_unauthenticated (uid : String)
    (docs : List (String × StoredUser)) (fDoc fRole fPerm : Fetch) (now : Nat) :
    initAuth (some uid) docs Fetch.fail fRole fPerm now =
      { user := none, isAuthenticated := false, isInitialized := true
        errorSurfaced := false, cache := none } ∧
    initAuth none docs fDoc fRole fPerm now =
      { user := none, isAuthenticated := false, isInitialized := true
        errorSurfaced := false, cache := none } :=
  ⟨rfl, rfl⟩

/-- C7: `assignRole` is atomic with respect to the role mutation and the
audit write. If the assigner role fails the assignment-validity check, the
call fails with the permission-denied error and the committed state is the
unchanged input state (no role mutation, no audit entry); and every successful
call commits exactly the state in which the target role and permission set
are updated AND one audit entry is appended — the two never occur one without
the other, because both are writes of the same transaction. -/
theorem assignRole_atomic (s : FirestoreState) (a : RoleAssignmentDTO) :
    (∀ tu, lookupEntry s.users a.userId = some tu →
      validateRoleAssignment (getUserRole s a.assignedBy) a.newRole = false →
      assignRole s a =
        Except.error "Failed to assign role: Insufficient privileges to assign this role" ∧
      commitOr s (assignRole s a) = s) ∧
    (∀ s2, assignRole s a = Except.ok s2 →
      ∃ tu, lookupEntry s.users a.userId = some tu ∧
        validateRoleAssignment (getUserRole s a.assignedBy) a.newRole = true ∧
        s2 = { s with
          users := (updateEntry s.users a.userId (fun u => { u with
            role := a.newRole
            permissions := UserRoleUtils.getPermissionsForRole a.newRole
            lastRoleModifiedBy := some a.assignedBy }))
          auditLogs := s.auditLogs ++
            [{ action := "role_assigned", performedBy := a.assignedBy
               targetUserId := a.userId, previousRole := tu.role
               newRole := a.newRole, reason := a.reason }] }) := by
  constructor
  · intro tu ht hv
    have he : assignRole s a =
        Except.error "Failed to assign role: Insufficient privileges to assign this role" := by
      unfold assignRole
      rw [ht]
      simp [hv]
    refine ⟨he, ?_⟩
    rw [he]
    rfl
  · intro s2 hok
    cases ht : lookupEntry s.users a.userId with
    | none =>
      have herr : assignRole s a = Except.error "Failed to assign role: User not found" := by
        unfold assignRole
        rw [ht]
      rw [herr] at hok
      exact absurd hok (by simp)
    | some tu =>
      by_cases hv : validateRoleAssignment (getUserRole s a.assignedBy) a.newRole = true
      · have heq : assignRole s a = Except.ok
            { s with
              users := (updateEntry s.users a.userId (fun u => { u with
                role := a.newRole
                permissions := UserRoleUtils.getPermissionsForRole a.newRole
                lastRoleModifiedBy := some a.assignedBy }))
              auditLogs := s.auditLogs ++
                [{ action := "role_assigned", performedBy := a.assignedBy
                   targetUserId := a.userId, previousRole := tu.role
                   newRole := a.newRole, reason := a.reason }] } := by
          unfold assignRole
          rw [ht]
          simp [hv]
        rw [heq] at hok
        exact ⟨tu, rfl, hv, (Except.ok.inj hok).symm⟩
      · have herr : assignRole s a =
            Except.error "Failed to assign role: Insufficient privileges to assign this role" := by
          unfold assignRole
          rw [ht]
          simp [eq_false_of_ne_true hv]
        rw [herr] at hok
        exact absurd hok (by simp)

/-- C7 witness: at the concrete state, an ADMIN actor attempting to grant
ADMIN fails with the permission-denied error and the committed state is the
unchanged input state. -/
theorem assignRole_atomic_witness :
    assignRole exampleState
      { userId := "t1", newRole := UserRole.ADMIN, assignedBy := "ad", reason := none } =
      Except.error "Failed to assign role: Insufficient privileges to assign this role" ∧
    commitOr exampleState (assignRole exampleState
      { userId := "t1", newRole := UserRole.ADMIN, assignedBy := "ad", reason := none }) =
      exampleState :=
  (assignRole_atomic exampleState
    { userId := "t1", newRole := UserRole.ADMIN, assignedBy := "ad", reason := none }).1
    stUser (by decide) (by decide)

/-- C8: granting ADMIN to a target whose stored role is USER, by an assigner
whose stored role is SUPER_ADMIN, succeeds; the committed state stores role
ADMIN with exactly the static ADMIN permission list for the target, and one
audit entry with previousRole USER and newRole ADMIN is appended. -/
theorem assignRole_standard_to_admin (s : FirestoreState) (targetId assignerId : String)
    (reason : Option String) (tu : StoredUser)
    (ht : lookupEntry s.users targetId = some tu)
    (hrole : tu.role = UserRole.USER)
    (hassigner : getUserRole s assignerId = UserRole.SUPER_ADMIN) :
    ∃ s2, assignRole s
        { userId := targetId, newRole := UserRole.ADMIN
          assignedBy := assignerId, reason := reason } = Except.ok s2 ∧
      (lookupEntry s2.users targetId).map (fun u => u.role) = some UserRole.ADMIN ∧
      (lookupEntry s2.users targetId).map (fun u => u.permissions) =
        some (UserRoleUtils.getPermissionsForRole UserRole.ADMIN) ∧
      s2.auditLogs = s.auditLogs ++
        [{ action := "role_assigned", performedBy := assignerId
           targetUserId := targetId, previousRole := UserRole.USER
           newRole := UserRole.ADMIN, reason := reason }] := by
  have hv : validateRoleAssignment (getUserRole s assignerId) UserRole.ADMIN = true := by
    rw [hassigner]
    rfl
  have heq : assignRole s
      { userId := targetId, newRole := UserRole.ADMIN
        assignedBy := assignerId, reason := reason } = Except.ok
      { s with
        users := (updateEntry s.users targetId (fun u => { u with
          role := UserRole.ADMIN
          permissions := UserRoleUtils.getPermissionsForRole UserRole.ADMIN
          lastRoleModifiedBy := some assignerId }))
        auditLogs := s.auditLogs ++
          [{ action := "role_assigned", performedBy := assignerId
             targetUserId := targetId, previousRole := tu.role
             newRole := UserRole.ADMIN, reason := reason }] } := by
    unfold assignRole
    rw [ht]
    simp [hv]
  refine ⟨_, heq, ?_, ?_, ?_⟩
  · show (lookupEntry (updateEntry s.users targetId _) targetId).map _ = _
    rw [lookupEntry_updateEntry_self, ht]
    rfl
  · show (lookupEntry (updateEntry s.users targetId _) targetId).map _ = _
    rw [lookupEntry_updateEntry_self, ht]
    rfl
  · show s.auditLogs ++ _ = s.auditLogs ++ _
    rw [hrole]

/-- C8 witness: at the concrete state, the super admin grants ADMIN to the
standard user `t1`. -/
theorem assignRole_standard_to_admin_witness :
    ∃ s2, assignRole exampleState
        { userId := "t1", newRole := UserRole.ADMIN
          assignedBy := "sa", reason := some "ok" } = Except.ok s2 ∧
      (lookupEntry s2.users "t1").map (fun u => u.role) = some UserRole.ADMIN ∧
      (lookupEntry s2.users "t1").map (fun u => u.permissions) =
        some (UserRoleUtils.getPermissionsForRole UserRole.ADMIN) ∧
      s2.auditLogs = exampleState.auditLogs ++
        [{ action := "role_assigned", performedBy := "sa"
           targetUserId := "t1", previousRole := UserRole.USER
           newRole := UserRole.ADMIN, reason := some "ok" }] :=
  assignRole_standard_to_admin exampleState "t1" "sa" (some "ok") stUser
    (by decide) rfl (by decide)

/-- C6: `removeRole` refuses every request whose target currently holds the
SUPER_ADMIN role — whatever the actor — and commits nothing in that case; for
a non-elevated target it succeeds whenever the remover passes the
assignment-validity check against USER, committing exactly the state in which
the target holds role USER with the static USER permission list and one
`role_removed` audit entry is appended. -/
theorem removeRole_spec (s : FirestoreState) (userId removedBy : String) :
    (∀ tu, lookupEntry s.users userId = some tu →
      tu.role = UserRole.SUPER_ADMIN →
      (∃ e, removeRole s userId removedBy = Except.error e) ∧
      commitOr s (removeRole s userId removedBy) = s) ∧
    (∀ tu, lookupEntry s.users userId = some tu →
      tu.role ≠ UserRole.SUPER_ADMIN →
      validateRoleAssignment (getUserRole s removedBy) UserRole.USER = true →
      removeRole s userId removedBy = Except.ok
        { s with
          users := (updateEntry s.users userId (fun u => { u with
            role := UserRole.USER
            permissions := UserRoleUtils.getPermissionsForRole UserRole.USER
            lastRoleModifiedBy := some removedBy }))
          auditLogs := s.auditLogs ++
            [{ action := "role_removed", performedBy := removedBy
               targetUserId := userId, previousRole := tu.role
               newRole := UserRole.USER, reason := none }] }) := by
  constructor
  · intro tu ht hsa
    have he : ∃ e, removeRole s userId removedBy = Except.error e := by
      unfold removeRole
      rw [ht]
      by_cases hv : validateRoleAssignment (getUserRole s removedBy) UserRole.USER = true
      · refine ⟨"Failed to remove role: Cannot remove super admin role", ?_⟩
        simp [hv, hsa]
      · refine ⟨"Failed to remove role: Insufficient privileges to remove this role", ?_⟩
        simp [eq_false_of_ne_true hv]
    obtain ⟨e, he⟩ := he
    refine ⟨⟨e, he⟩, ?_⟩
    rw [he]
    rfl
  · intro tu ht hne hv
    unfold removeRole
    rw [ht]
    simp [hv, hne]

/-- C6 witness: at the concrete state, removing the super admin role fails
(even for the super admin as actor) and commits nothing, while removing the
admin role by the super admin succeeds, reverts `ad` to USER with the USER
permission list and appends one audit entry. -/
theorem removeRole_spec_witness :
    ((∃ e, removeRole exampleState "sa" "sa" = Except.error e) ∧
      commitOr exampleState (removeRole exampleState "sa" "sa") = exampleState) ∧
    removeRole exampleState "ad" "sa" = Except.ok
      { exampleState with
        users := (updateEntry exampleState.users "ad" (fun u => { u with
          role := UserRole.USER
          permissions := UserRoleUtils.getPermissionsForRole UserRole.USER
          lastRoleModifiedBy := some "sa" }))
        auditLogs := exampleState.auditLogs ++
          [{ action := "role_removed", performedBy := "sa"
             targetUserId := "ad", previousRole := adUser.role
             newRole := UserRole.USER, reason := none }] } :=
  ⟨(removeRole_spec exampleState "sa" "sa").1 saUser (by decide) rfl,
   (removeRole_spec exampleState "ad" "sa").2 adUser (by decide) (by decide) (by decide)⟩

/-- C2 evaluation at the failing input: rejecting the pending request `r1`
succeeds and stores it with `status = "rejected"` and `approved = false`; the
subsequent `approveRoleChangeRequest` on the same id then does NOT fail with
the already-processed error — it succeeds and mutates the target role to
ADMIN, because both terminal-state guards test only the `approved` flag, which
a rejection leaves false. -/
theorem rejected_request_can_be_approved :
    (rejectRoleChangeRequest exampleState "r1" "sa" none).isOk = true ∧
    (lookupEntry afterRejectState.requests "r1").map (fun r => r.status) =
      some "rejected" ∧
    (lookupEntry afterRejectState.requests "r1").map (fun r => r.approved) =
      some false ∧
    (approveRoleChangeRequest afterRejectState "r1" "sa").isOk = true ∧
    (lookupEntry (commitOr afterRejectState
        (approveRoleChangeRequest afterRejectState "r1" "sa")).users "t1").map
      (fun u => u.role) = some UserRole.ADMIN := by
  decide

/-- C3 counterexample: with the admin principal held and authenticated, a
revalidation cycle in which the role-validation fetch fails transiently does
NOT leave `hasPermission` unchanged: `validateUserRole` catches the error and
returns the default USER role, the auto-refresh effect sees a role change and
replaces the principal, and `hasPermission MANAGE_USERS` flips from true to
false. -/
theorem transient_roleFetch_failure_demotes :
    hasPermission exampleAuthState Permission.MANAGE_USERS = true ∧
    hasPermission (autoRefreshTick exampleAuthState (some "ad") exampleUsers
      Fetch.ok Fetch.fail Fetch.fail 5).state Permission.MANAGE_USERS = false := by
  decide

/-- C3 amended: the effect of a transient fetch failure during revalidation
depends on which round trip fails. If the user-document fetch fails, the
provider state (principal, flags, cache, hence every `hasPermission` result)
is unchanged — but the repository calls the identity provider `signOut`
whenever a session exists. If instead the user document is obtained and the
role-validation fetches fail, the failure is not surfaced: `validateUserRole`
substitutes the default USER role, so a principal holding any other role is
replaced by one with role USER and the static USER permission list. -/
theorem revalidation_transient_behaviour (st : AuthState) (authSession : Option String)
    (docs : List (String × StoredUser)) (fRole fPerm : Fetch) (now : Nat) :
    ((autoRefreshTick st authSession docs Fetch.fail fRole fPerm now).state = st) ∧
    (∀ user uid, st.user = some user → st.isAuthenticated = true →
      (autoRefreshTick st (some uid) docs Fetch.fail fRole fPerm now).firebaseSignOutCalled
        = true) ∧
    (∀ user su, st.user = some user → st.isAuthenticated = true →
      lookupEntry docs user.id = some su → su.id = user.id →
      user.role ≠ UserRole.USER →
      (autoRefreshTick st (some user.id) docs Fetch.ok Fetch.fail Fetch.fail now).state.user
        = some { su with
            role := UserRole.USER
            permissions := UserRoleUtils.getPermissionsForRole UserRole.USER }) := by
  refine ⟨?_, ?_, ?_⟩
  · cases hu : st.user with
    | none =>
      unfold autoRefreshTick
      rw [hu]
    | some user =>
      cases ha : st.isAuthenticated with
      | false =>
        unfold autoRefreshTick
        rw [hu, ha]
      | true =>
        unfold autoRefreshTick
        rw [hu, ha]
        cases authSession <;> rfl
  · intro user uid hu ha
    unfold autoRefreshTick
    rw [hu, ha]
    rfl
  · intro user su hu ha hd hid hr
    unfold autoRefreshTick
    rw [hu, ha]
    have hcu : getCurrentUser (some user.id) docs Fetch.ok Fetch.fail Fetch.fail =
        { result := some { su with
            role := UserRole.USER
            permissions := UserRoleUtils.getPermissionsForRole UserRole.USER }
          firebaseSignOutCalled := false } := by
      simp [getCurrentUser, getUserFromFirestore, refreshUserPermissions,
        validateUserRole, hd]
    rw [hcu]
    have hcond : ¬ UserRole.USER = user.role := fun h => hr h.symm
    simp [hid, hcond]

/-- C3 amended witness: at the concrete admin principal, a failing
user-document fetch leaves the state unchanged while calling `signOut`, and a
failing role-validation fetch replaces the principal with a USER-role one. -/
theorem revalidation_transient_behaviour_witness :
    ((autoRefreshTick exampleAuthState (some "ad") exampleUsers
        Fetch.fail Fetch.ok Fetch.ok 5).state = exampleAuthState) ∧
    ((autoRefreshTick exampleAuthState (some "ad") exampleUsers
        Fetch.fail Fetch.ok Fetch.ok 5).firebaseSignOutCalled = true) ∧
    ((autoRefreshTick exampleAuthState (some "ad") exampleUsers
        Fetch.ok Fetch.fail Fetch.fail 5).state.user = some { adUser with
          role := UserRole.USER
          permissions := UserRoleUtils.getPermissionsForRole UserRole.USER }) :=
  ⟨(revalidation_transient_behaviour exampleAuthState (some "ad") exampleUsers
      Fetch.ok Fetch.ok 5).1,
   (revalidation_transient_behaviour exampleAuthState (some "ad") exampleUsers
      Fetch.ok Fetch.ok 5).2.1 adUser "ad" rfl rfl,
   (revalidation_transient_behaviour exampleAuthState (some "ad") exampleUsers
      Fetch.ok Fetch.ok 5).2.2 adUser adUser rfl rfl (by decide) rfl (by decide)⟩

/-- C9: a revalidation cycle that fetches a role equal to the held principal
role — and hence a permission list equal to the held one — changes nothing:
the principal object, the `isAuthenticated` flag and the cached fingerprint
(including its `lastRefresh` time) are all identical before and after the
tick, and no identity-provider sign-out happens, so every `hasRole` and
`hasPermission` result is preserved. -/
theorem revalidation_unchanged_idempotent (st : AuthState) (user su : StoredUser)
    (docs : List (String × StoredUser)) (now : Nat)
    (hu : st.user = some user) (ha : st.isAuthenticated = true)
    (hd : lookupEntry docs user.id = some su) (hid : su.id = user.id)
    (hrole : su.role = user.role)
    (hperm : UserRoleUtils.getPermissionsForRole su.role = user.permissions) :
    autoRefreshTick st (some user.id) docs Fetch.ok Fetch.ok Fetch.ok now =
      { state := st, firebaseSignOutCalled := false } := by
  unfold autoRefreshTick
  rw [hu, ha]
  have hcu : getCurrentUser (some user.id) docs Fetch.ok Fetch.ok Fetch.ok =
      { result := some { su with
          role := su.role
          permissions := UserRoleUtils.getPermissionsForRole su.role }
        firebaseSignOutCalled := false } := by
    simp [getCurrentUser, getUserFromFirestore, refreshUserPermissions,
      validateUserRole, hd]
  rw [hcu]
  have hperm2 : UserRoleUtils.getPermissionsForRole user.role = user.permissions := by
    rw [← hrole]
    exact hperm
  simp [hid, hrole, hperm2]

/-- C9 witness: at the concrete admin principal with matching stored role, a
fully successful revalidation tick is a strict no-op. -/
theorem revalidation_unchanged_idempotent_witness :
    autoRefreshTick exampleAuthState (some "ad") exampleUsers
      Fetch.ok Fetch.ok Fetch.ok 7 =
      { state := exampleAuthState, firebaseSignOutCalled := false } :=
  revalidation_unchanged_idempotent exampleAuthState adUser adUser exampleUsers 7
    rfl rfl (by decide) rfl rfl rfl

end MyRuubix
